import Mathlib

/-
Verification of the pricing, numbering, recurrence, payment and settings
logic of the smart-invoice backend.

Monetary values are Python `Decimal`s; within the ranges exercised by this
service (well below the 28-significant-digit context), Decimal arithmetic
(`+`, `*`) is exact, so we model amounts as rationals.  `Decimal.quantize`
with exponent 0.01 uses the context default rounding ROUND_HALF_EVEN
(banker's rounding), modelled by `quantize2` below.
-/

namespace SmartInvoice

/-- Round a rational to the nearest integer, ties to even
(Python decimal ROUND_HALF_EVEN). -/
def roundHalfEven (x : ℚ) : ℤ :=
  if x - (Int.floor x : ℚ) < 1/2 then Int.floor x
  else if 1/2 < x - (Int.floor x : ℚ) then Int.floor x + 1
  else if Int.floor x % 2 = 0 then Int.floor x else Int.floor x + 1

/-- Model of Decimal.quantize with exponent 0.01 and default context
rounding (ROUND_HALF_EVEN), as used for the tax amounts. -/
def quantize2 (x : ℚ) : ℚ := ((roundHalfEven (x * 100) : ℤ) : ℚ) / 100

/-- Python truthiness of an optional Decimal: None and 0 are falsy
(models conditions of the shape `if user.tax_rate:`). -/
def decimalTruthy (x : Option ℚ) : Bool :=
  match x with
  | none => false
  | some v => v != 0

/-- Row of the rate_items table (db/models.py, RateItem).  `id` stands in
for the UUID primary key. -/
structure RateItem where
  id : Nat
  category : String
  name : String
  rate : ℚ
  unit : String
  aliases : List String
  is_active : Bool
deriving Repr, DecidableEq

/-- Line item emitted by the external extraction step
(services/ai_parser.ParsedLineItem as consumed by the builder). -/
structure ParsedLineItem where
  item_key : String
  quantity : ℚ
  notes : Option String
deriving Repr, DecidableEq

/-- Parsed invoice draft (services/ai_parser.ParsedInvoice as consumed by
the builder). -/
structure ParsedInvoice where
  line_items : List ParsedLineItem
  client_name : Option String
  work_date : Option String
  notes : Option String
  unmatched_items : List String
deriving Repr, DecidableEq

/-- Tenant settings carried on the users row (db/models.py, User):
business profile plus tax configuration. -/
structure UserSettings where
  business_name : Option String
  business_address : Option String
  business_phone : Option String
  business_email : Option String
  tax_rate : Option ℚ
  tax_name : Option String
  secondary_tax_rate : Option ℚ
  secondary_tax_name : Option String
deriving Repr, DecidableEq

/-- services/invoice_builder.InvoiceLineItemData: a line with computed
pricing.  The constructor (mkLineItemData) computes
line_total = quantity * unit_price. -/
structure InvoiceLineItemData where
  description : String
  quantity : ℚ
  unit : String
  unit_price : ℚ
  line_total : ℚ
  rate_item_id : Option Nat
  notes : Option String
  matched : Bool
deriving Repr, DecidableEq

/-- Constructor of InvoiceLineItemData: sets
line_total := quantity * unit_price (invoice_builder.py line 35). -/
def mkLineItemData (description : String) (quantity : ℚ) (unit : String)
    (unit_price : ℚ) (rate_item_id : Option Nat) (notes : Option String)
    (matched : Bool) : InvoiceLineItemData :=
  ⟨description, quantity, unit, unit_price, quantity * unit_price,
    rate_item_id, notes, matched⟩

/-- services/invoice_builder.InvoiceData: complete invoice with computed
totals. -/
structure InvoiceData where
  line_items : List InvoiceLineItemData
  subtotal : ℚ
  tax_amount : ℚ
  secondary_tax_amount : ℚ
  total : ℚ
  client_name : Option String
  work_date : Option String
  notes : Option String
  unmatched_items : List String
deriving Repr, DecidableEq

/-- Model of Python str.lower: lower-case every character (ASCII case
mapping, which covers the rate-card keys this service uses). -/
def lowerName (s : String) : String := String.mk (s.data.map Char.toLower)

/-- Key under which a rate item is indexed:
f-string category ++ "." ++ name.lower() (invoice_builder.py line 84). -/
def rateKey (r : RateItem) : String := r.category ++ "." ++ lowerName r.name

/-- The rate items the builder queries: only rows with is_active true
(the SQL where clause of invoice_builder.py lines 77-82). -/
def activeRateItems (items : List RateItem) : List RateItem :=
  items.filter (fun r => r.is_active)

/-- Lookup in the dict comprehension index of invoice_builder.py
lines 83-86: keys are rateKey of each active row, a later row with the
same key overwrites an earlier one (Python dict semantics), hence the
lookup returns the last active row whose key equals the query. -/
def rateIndexGet (items : List RateItem) (key : String) : Option RateItem :=
  (activeRateItems items).reverse.find? (fun r => rateKey r == key)

/-- The string appended to unmatched_items for an item absent from the
rate card: f-string item_key ++ " (qty: " ++ quantity ++ ")"
(invoice_builder.py line 111). -/
def unmatchedTag (p : ParsedLineItem) : String :=
  p.item_key ++ " (qty: " ++ toString p.quantity ++ ")"

/-- Body of the for-loop of invoice_builder.py lines 95-111: a matched
item appends a priced line (price from the rate card), an unmatched item
appends its tag to the unmatched list. -/
def buildStep (rateItems : List RateItem)
    (acc : List InvoiceLineItemData × List String) (p : ParsedLineItem) :
    List InvoiceLineItemData × List String :=
  match rateIndexGet rateItems p.item_key with
  | some r =>
      (acc.1 ++ [mkLineItemData r.name p.quantity r.unit r.rate (some r.id) p.notes true],
       acc.2)
  | none => (acc.1, acc.2 ++ [unmatchedTag p])

/-- services/invoice_builder.build_invoice_from_parsed, lines 66-136:
match each parsed item against the rate-card index, then compute
subtotal, the two tax amounts and the total. -/
def build_invoice_from_parsed (rateItems : List RateItem)
    (user : UserSettings) (parsed : ParsedInvoice) : InvoiceData :=
  let acc := parsed.line_items.foldl (buildStep rateItems)
    ([], parsed.unmatched_items)
  let line_items := acc.1
  let unmatched := acc.2
  let subtotal := (line_items.map (fun l => l.line_total)).sum
  let tax_amount :=
    if decimalTruthy user.tax_rate then
      quantize2 (subtotal * user.tax_rate.getD 0)
    else 0
  let secondary_tax_amount :=
    if decimalTruthy user.secondary_tax_rate then
      quantize2 (subtotal * user.secondary_tax_rate.getD 0)
    else 0
  let total := subtotal + tax_amount + secondary_tax_amount
  ⟨line_items, subtotal, tax_amount, secondary_tax_amount, total,
    parsed.client_name, parsed.work_date, parsed.notes, unmatched⟩

/-- Totals computation of services/recurring.generate_invoice_from_recurring,
lines 116-122: subtotal over the built line items,
tax = (subtotal * (tax_rate or 0)).quantize(0.01), secondary tax guarded by
truthiness, total = subtotal + both taxes.  Returned as
(subtotal, tax_amount, secondary_tax, total). -/
def recurringTotals (line_items : List InvoiceLineItemData)
    (user : UserSettings) : ℚ × ℚ × ℚ × ℚ :=
  let subtotal := (line_items.map (fun l => l.line_total)).sum
  let tax_amount := quantize2 (subtotal * user.tax_rate.getD 0)
  let secondary_tax :=
    if decimalTruthy user.secondary_tax_rate then
      quantize2 (subtotal * user.secondary_tax_rate.getD 0)
    else 0
  let total := subtotal + tax_amount + secondary_tax
  (subtotal, tax_amount, secondary_tax, total)

/-- Specification view of the matcher: the priced line produced for a
parsed item, when its key is found in the index. -/
def matchLine (rateItems : List RateItem) (p : ParsedLineItem) :
    Option InvoiceLineItemData :=
  (rateIndexGet rateItems p.item_key).map
    (fun r => mkLineItemData r.name p.quantity r.unit r.rate (some r.id) p.notes true)

/-- Specification view of the unmatched path: the tag produced for a
parsed item whose key is not in the index. -/
def unmatchedLabel (rateItems : List RateItem) (p : ParsedLineItem) :
    Option String :=
  match rateIndexGet rateItems p.item_key with
  | some _ => none
  | none => some (unmatchedTag p)

/-- Rounding a rational that is already an integer returns that integer. -/
theorem roundHalfEven_intCast (n : ℤ) : roundHalfEven (n : ℚ) = n := by
  norm_num [roundHalfEven, Int.floor_intCast]

/-- Evaluation of quantize2 when x * 100 is an integer. -/
theorem quantize2_of_intCast (x : ℚ) (n : ℤ) (h : x * 100 = (n : ℚ)) :
    quantize2 x = (n : ℚ) / 100 := by
  rw [quantize2, h, roundHalfEven_intCast]

theorem quantize2_zero : quantize2 0 = 0 := by
  rw [quantize2_of_intCast 0 0 (by norm_num)]
  norm_num

/-- Ties round to the even neighbour. -/
theorem roundHalfEven_half (n : ℤ) :
    roundHalfEven ((n : ℚ) + 1/2) = if n % 2 = 0 then n else n + 1 := by
  have hf : Int.floor ((n : ℚ) + 1/2) = n := by
    rw [Int.floor_eq_iff]
    constructor
    · norm_num
    · norm_num
  norm_num [roundHalfEven, hf]

/-- Evaluation of quantize2 on a tie whose lower neighbour is even. -/
theorem quantize2_of_half (x : ℚ) (n : ℤ) (h : x * 100 = (n : ℚ) + 1/2)
    (he : n % 2 = 0) : quantize2 x = (n : ℚ) / 100 := by
  rw [quantize2, h, roundHalfEven_half, if_pos he]

/-- The matching loop in terms of filterMap: matched items append priced
lines in order, unmatched items append their tags in order. -/
theorem buildFold_append (rateItems : List RateItem)
    (items : List ParsedLineItem) (acc : List InvoiceLineItemData × List String) :
    items.foldl (buildStep rateItems) acc =
      (acc.1 ++ items.filterMap (matchLine rateItems),
       acc.2 ++ items.filterMap (unmatchedLabel rateItems)) := by
  induction items generalizing acc with
  | nil => simp
  | cons p rest ih =>
      cases h : rateIndexGet rateItems p.item_key with
      | some r =>
          simp [List.foldl_cons, buildStep, h, ih, matchLine, unmatchedLabel,
            List.filterMap_cons]
      | none =>
          simp [List.foldl_cons, buildStep, h, ih, matchLine, unmatchedLabel,
            List.filterMap_cons]

/-- The priced lines of a built invoice are exactly the matched parsed
items, in order. -/
theorem build_line_items_eq (rateItems : List RateItem) (user : UserSettings)
    (parsed : ParsedInvoice) :
    (build_invoice_from_parsed rateItems user parsed).line_items =
      parsed.line_items.filterMap (matchLine rateItems) := by
  simp [build_invoice_from_parsed, buildFold_append]

/-- The unmatched list of a built invoice is the parser-reported unmatched
list followed by the tags of the items that failed the rate-card lookup. -/
theorem build_unmatched_eq (rateItems : List RateItem) (user : UserSettings)
    (parsed : ParsedInvoice) :
    (build_invoice_from_parsed rateItems user parsed).unmatched_items =
      parsed.unmatched_items ++
        parsed.line_items.filterMap (unmatchedLabel rateItems) := by
  simp [build_invoice_from_parsed, buildFold_append]

/-- The subtotal of a built invoice is the sum of its line totals. -/
theorem build_subtotal_eq (rateItems : List RateItem) (user : UserSettings)
    (parsed : ParsedInvoice) :
    (build_invoice_from_parsed rateItems user parsed).subtotal =
      ((build_invoice_from_parsed rateItems user parsed).line_items.map
        (fun l => l.line_total)).sum := by
  simp [build_invoice_from_parsed]

/-- The truthiness guard around a tax computation is redundant: an unset or
zero rate yields exactly quantize2 (subtotal * 0) = 0. -/
theorem tax_if_truthy (s : ℚ) (rate : Option ℚ) :
    (if decimalTruthy rate then quantize2 (s * rate.getD 0) else 0) =
      quantize2 (s * rate.getD 0) := by
  cases rate with
  | none => simp [decimalTruthy, quantize2_zero]
  | some r =>
      by_cases hr : r = 0
      · simp [decimalTruthy, hr, quantize2_zero]
      · simp [decimalTruthy, hr]

/-- The primary tax of a built invoice is the banker's rounding of
subtotal * tax_rate, with an unset rate counting as 0. -/
theorem build_tax_eq (rateItems : List RateItem) (user : UserSettings)
    (parsed : ParsedInvoice) :
    (build_invoice_from_parsed rateItems user parsed).tax_amount =
      quantize2 ((build_invoice_from_parsed rateItems user parsed).subtotal *
        user.tax_rate.getD 0) := by
  simp only [build_invoice_from_parsed]
  exact tax_if_truthy _ _

/-- The secondary tax of a built invoice is the banker's rounding of
subtotal * secondary_tax_rate, computed from the same pre-tax subtotal. -/
theorem build_secondary_tax_eq (rateItems : List RateItem) (user : UserSettings)
    (parsed : ParsedInvoice) :
    (build_invoice_from_parsed rateItems user parsed).secondary_tax_amount =
      quantize2 ((build_invoice_from_parsed rateItems user parsed).subtotal *
        user.secondary_tax_rate.getD 0) := by
  simp only [build_invoice_from_parsed]
  exact tax_if_truthy _ _

/-- The recurring-invoice primary tax is the banker's rounding of
subtotal * (tax_rate or 0). -/
theorem recurring_tax_eq (lineItems : List InvoiceLineItemData)
    (user : UserSettings) :
    (recurringTotals lineItems user).2.1 =
      quantize2 ((recurringTotals lineItems user).1 * user.tax_rate.getD 0) := by
  simp [recurringTotals]

/-- The recurring-invoice secondary tax is computed from the same pre-tax
subtotal. -/
theorem recurring_secondary_tax_eq (lineItems : List InvoiceLineItemData)
    (user : UserSettings) :
    (recurringTotals lineItems user).2.2.1 =
      quantize2 ((recurringTotals lineItems user).1 *
        user.secondary_tax_rate.getD 0) := by
  simp only [recurringTotals]
  exact tax_if_truthy _ _

/-- The total of a built invoice is subtotal + primary tax + secondary tax,
with the subtotal entering at full precision. -/
theorem build_total_eq (rateItems : List RateItem) (user : UserSettings)
    (parsed : ParsedInvoice) :
    (build_invoice_from_parsed rateItems user parsed).total =
      (build_invoice_from_parsed rateItems user parsed).subtotal +
      (build_invoice_from_parsed rateItems user parsed).tax_amount +
      (build_invoice_from_parsed rateItems user parsed).secondary_tax_amount := by
  simp [build_invoice_from_parsed]

/-- The recurring-invoice total is subtotal + primary tax + secondary tax. -/
theorem recurring_total_eq (lineItems : List InvoiceLineItemData)
    (user : UserSettings) :
    (recurringTotals lineItems user).2.2.2 =
      (recurringTotals lineItems user).1 + (recurringTotals lineItems user).2.1 +
      (recurringTotals lineItems user).2.2.1 := by
  simp [recurringTotals]

/-- Rate card of the worked scenario of the spec (section 8): labor
troubleshooting at 85 per hour, a 30-amp breaker at 22 each. -/
def demoRates : List RateItem :=
  [⟨1, "labor", "Troubleshooting", 85, "hour", ["troubleshoot", "debug"], true⟩,
   ⟨2, "materials", "breaker-30a", 22, "each", [], true⟩]

/-- Tenant of the worked scenario: primary tax 5 percent, no secondary tax. -/
def demoUser : UserSettings :=
  ⟨some "Demo Electric", none, none, none, some (1/20), some "GST", none, none⟩

/-- First parsed item of the worked scenario. -/
def demoItem1 : ParsedLineItem := ⟨"labor.troubleshooting", 3, none⟩

/-- Parsed draft of the worked scenario: three hours troubleshooting, one
breaker, one unknown task. -/
def demoParsed : ParsedInvoice :=
  ⟨[demoItem1, ⟨"materials.breaker-30a", 1, none⟩, ⟨"labor.unknown-task", 1, none⟩],
    none, none, none, []⟩

/-- C1: each matched item's line total is quantity times the matched
rate-card entry's rate at full precision; the subtotal is the sum of the
matched line totals only (the line items are exactly the matched items, so
unmatched items contribute nothing); each tax amount is independently the
2-decimal banker's rounding of subtotal times the respective rate (an unset
rate counting as 0), computed from the same pre-tax subtotal and never from
subtotal plus the other tax.  The last three conjuncts state the same for
the recurring-invoice totals computation. -/
theorem pricing_line_totals_subtotal_and_taxes
    (rateItems : List RateItem) (user : UserSettings) (parsed : ParsedInvoice)
    (recurringLineItems : List InvoiceLineItemData) :
    ((build_invoice_from_parsed rateItems user parsed).line_items =
        parsed.line_items.filterMap (matchLine rateItems))
    ∧ (∀ p ∈ parsed.line_items, ∀ r, rateIndexGet rateItems p.item_key = some r →
        matchLine rateItems p =
          some (mkLineItemData r.name p.quantity r.unit r.rate (some r.id) p.notes true))
    ∧ (∀ description quantity unit unit_price rate_item_id notes matched,
        (mkLineItemData description quantity unit unit_price rate_item_id notes
          matched).line_total = quantity * unit_price)
    ∧ ((build_invoice_from_parsed rateItems user parsed).subtotal =
        ((build_invoice_from_parsed rateItems user parsed).line_items.map
          (fun l => l.line_total)).sum)
    ∧ ((build_invoice_from_parsed rateItems user parsed).tax_amount =
        quantize2 ((build_invoice_from_parsed rateItems user parsed).subtotal *
          user.tax_rate.getD 0))
    ∧ ((build_invoice_from_parsed rateItems user parsed).secondary_tax_amount =
        quantize2 ((build_invoice_from_parsed rateItems user parsed).subtotal *
          user.secondary_tax_rate.getD 0))
    ∧ ((recurringTotals recurringLineItems user).1 =
        (recurringLineItems.map (fun l => l.line_total)).sum)
    ∧ ((recurringTotals recurringLineItems user).2.1 =
        quantize2 ((recurringTotals recurringLineItems user).1 * user.tax_rate.getD 0))
    ∧ ((recurringTotals recurringLineItems user).2.2.1 =
        quantize2 ((recurringTotals recurringLineItems user).1 *
          user.secondary_tax_rate.getD 0)) := by
  refine ⟨build_line_items_eq _ _ _, ?_, ?_, build_subtotal_eq _ _ _,
    build_tax_eq _ _ _, build_secondary_tax_eq _ _ _, by simp [recurringTotals],
    recurring_tax_eq _ _, recurring_secondary_tax_eq _ _⟩
  · intro p _ r hr
    simp [matchLine, hr]
  · intro d q u up i n m
    rfl

/-- Witness for C1 at the spec's worked scenario: the item
labor.troubleshooting with quantity 3 matches the 85-per-hour entry and is
priced from the rate card. -/
theorem pricing_line_totals_subtotal_and_taxes_witness :
    matchLine demoRates demoItem1 =
      some (mkLineItemData "Troubleshooting" 3 "hour" 85 (some 1) none true) :=
  (pricing_line_totals_subtotal_and_taxes demoRates demoUser demoParsed []).2.1
    demoItem1 (by decide)
    ⟨1, "labor", "Troubleshooting", 85, "hour", ["troubleshoot", "debug"], true⟩
    (by decide)

/-- Counterexample to C2: one matched item of quantity 1/2 at rate 0.25
gives subtotal 0.125 and no taxes; the code's total is 0.125, but the claim
says the total is the subtotal rounded to 2 decimal places (0.12) plus the
taxes. -/
theorem total_rounds_subtotal_cex :
    (build_invoice_from_parsed [⟨1, "labor", "w", 1/4, "hour", [], true⟩]
        ⟨none, none, none, none, none, none, none, none⟩
        ⟨[⟨"labor.w", 1/2, none⟩], none, none, none, []⟩).total ≠
      quantize2 (build_invoice_from_parsed [⟨1, "labor", "w", 1/4, "hour", [], true⟩]
        ⟨none, none, none, none, none, none, none, none⟩
        ⟨[⟨"labor.w", 1/2, none⟩], none, none, none, []⟩).subtotal +
      (build_invoice_from_parsed [⟨1, "labor", "w", 1/4, "hour", [], true⟩]
        ⟨none, none, none, none, none, none, none, none⟩
        ⟨[⟨"labor.w", 1/2, none⟩], none, none, none, []⟩).tax_amount +
      (build_invoice_from_parsed [⟨1, "labor", "w", 1/4, "hour", [], true⟩]
        ⟨none, none, none, none, none, none, none, none⟩
        ⟨[⟨"labor.w", 1/2, none⟩], none, none, none, []⟩).secondary_tax_amount := by
  have hlk : rateIndexGet [⟨1, "labor", "w", 1/4, "hour", [], true⟩] "labor.w" =
      some ⟨1, "labor", "w", 1/4, "hour", [], true⟩ := rfl
  have hsub : (build_invoice_from_parsed [⟨1, "labor", "w", 1/4, "hour", [], true⟩]
      ⟨none, none, none, none, none, none, none, none⟩
      ⟨[⟨"labor.w", 1/2, none⟩], none, none, none, []⟩).subtotal = 1/8 := by
    rw [build_subtotal_eq, build_line_items_eq]
    simp only [List.filterMap_cons, List.filterMap_nil, matchLine, hlk,
      Option.map_some]
    simp [mkLineItemData]
    norm_num
  have htax : (build_invoice_from_parsed [⟨1, "labor", "w", 1/4, "hour", [], true⟩]
      ⟨none, none, none, none, none, none, none, none⟩
      ⟨[⟨"labor.w", 1/2, none⟩], none, none, none, []⟩).tax_amount = 0 := by
    rw [build_tax_eq]
    simp [quantize2_zero]
  have hsec : (build_invoice_from_parsed [⟨1, "labor", "w", 1/4, "hour", [], true⟩]
      ⟨none, none, none, none, none, none, none, none⟩
      ⟨[⟨"labor.w", 1/2, none⟩], none, none, none, []⟩).secondary_tax_amount = 0 := by
    rw [build_secondary_tax_eq]
    simp [quantize2_zero]
  have hq : quantize2 ((1:ℚ)/8) = 12/100 := by
    rw [quantize2_of_half (1/8) 12 (by norm_num) (by decide)]
    norm_num
  rw [build_total_eq, hsub, htax, hsec, hq]
  norm_num

/-- C2 amended: the total equals the full-precision subtotal plus the
primary and secondary tax amounts; the subtotal is not rounded before being
added into the total (any 2-decimal rounding of subtotal and total happens
only when the database coerces the Numeric columns on persistence, not in
this computation).  The second conjunct states the same for the
recurring-invoice totals. -/
theorem total_is_unrounded_subtotal_plus_taxes
    (rateItems : List RateItem) (user : UserSettings) (parsed : ParsedInvoice)
    (recurringLineItems : List InvoiceLineItemData) :
    ((build_invoice_from_parsed rateItems user parsed).total =
        (build_invoice_from_parsed rateItems user parsed).subtotal +
        (build_invoice_from_parsed rateItems user parsed).tax_amount +
        (build_invoice_from_parsed rateItems user parsed).secondary_tax_amount)
    ∧ ((recurringTotals recurringLineItems user).2.2.2 =
        (recurringTotals recurringLineItems user).1 +
        (recurringTotals recurringLineItems user).2.1 +
        (recurringTotals recurringLineItems user).2.2.1) :=
  ⟨build_total_eq _ _ _, recurring_total_eq _ _⟩

/-- Counterexample to C3: an active entry named Troubleshooting carries the
aliases debug and labor.debug, yet the key labor.debug is not in the index
and the item is reported unmatched (aliases are never indexed); likewise
labor.Troubleshooting misses, because the index lower-cases the entry name
at build time while the lookup uses the item key verbatim. -/
theorem alias_and_case_lookup_cex :
    rateIndexGet [⟨1, "labor", "Troubleshooting", 85, "hour",
        ["debug", "labor.debug"], true⟩] "labor.debug" = none
    ∧ rateIndexGet [⟨1, "labor", "Troubleshooting", 85, "hour",
        ["debug", "labor.debug"], true⟩] "labor.Troubleshooting" = none
    ∧ (build_invoice_from_parsed [⟨1, "labor", "Troubleshooting", 85, "hour",
        ["debug", "labor.debug"], true⟩]
        ⟨none, none, none, none, none, none, none, none⟩
        ⟨[⟨"labor.debug", 1, none⟩], none, none, none, []⟩).line_items = []
    ∧ (build_invoice_from_parsed [⟨1, "labor", "Troubleshooting", 85, "hour",
        ["debug", "labor.debug"], true⟩]
        ⟨none, none, none, none, none, none, none, none⟩
        ⟨[⟨"labor.debug", 1, none⟩], none, none, none, []⟩).unmatched_items =
      ["labor.debug (qty: 1)"] :=
  ⟨rfl, rfl, rfl, rfl⟩

/-- C3 amended: the index maps exactly the keys category ++ "." ++
lower-cased name of the active entries (aliases are not indexed), and
matching is a pure exact string lookup of the item's key as emitted: a
parsed item is matched to an entry precisely when its key equals such an
index key, and is otherwise reported in the unmatched list. -/
theorem rate_index_exact_lookup (rateItems : List RateItem) (key : String)
    (user : UserSettings) (parsed : ParsedInvoice) :
    ((rateIndexGet rateItems key).isSome = true ↔
        ∃ r ∈ rateItems, r.is_active = true ∧ rateKey r = key)
    ∧ (∀ r, rateIndexGet rateItems key = some r →
        r ∈ rateItems ∧ r.is_active = true ∧ rateKey r = key)
    ∧ (∀ p ∈ parsed.line_items, rateIndexGet rateItems p.item_key = none →
        unmatchedTag p ∈
          (build_invoice_from_parsed rateItems user parsed).unmatched_items)
    ∧ (∀ p ∈ parsed.line_items, ∀ r, rateIndexGet rateItems p.item_key = some r →
        mkLineItemData r.name p.quantity r.unit r.rate (some r.id) p.notes true ∈
          (build_invoice_from_parsed rateItems user parsed).line_items) := by
  refine ⟨?_, ?_, ?_, ?_⟩
  · rw [rateIndexGet, List.find?_isSome]
    constructor
    · rintro ⟨r, hmem, hkey⟩
      rw [List.mem_reverse, activeRateItems, List.mem_filter] at hmem
      exact ⟨r, hmem.1, hmem.2, by simpa using hkey⟩
    · rintro ⟨r, hmem, hact, hkey⟩
      refine ⟨r, ?_, by simpa using hkey⟩
      rw [List.mem_reverse, activeRateItems, List.mem_filter]
      exact ⟨hmem, hact⟩
  · intro r h
    rw [rateIndexGet] at h
    have hmem := List.mem_of_find?_eq_some h
    have hp := List.find?_some h
    rw [List.mem_reverse, activeRateItems, List.mem_filter] at hmem
    exact ⟨hmem.1, hmem.2, by simpa using hp⟩
  · intro p hp h
    rw [build_unmatched_eq]
    refine List.mem_append_right _ ?_
    rw [List.mem_filterMap]
    exact ⟨p, hp, by rw [unmatchedLabel, h]⟩
  · intro p hp r h
    rw [build_line_items_eq, List.mem_filterMap]
    exact ⟨p, hp, by simp [matchLine, h]⟩

/-- Witness for C3 at the worked scenario: materials.breaker-30a is an
index key, and the unknown task ends up tagged in the unmatched list. -/
theorem rate_index_exact_lookup_witness :
    (rateIndexGet demoRates "materials.breaker-30a").isSome = true
    ∧ unmatchedTag ⟨"labor.unknown-task", 1, none⟩ ∈
        (build_invoice_from_parsed demoRates demoUser demoParsed).unmatched_items :=
  ⟨(rate_index_exact_lookup demoRates "materials.breaker-30a" demoUser
      demoParsed).1.mpr
    ⟨⟨2, "materials", "breaker-30a", 22, "each", [], true⟩, by decide, by decide,
      by decide⟩,
   (rate_index_exact_lookup demoRates "materials.breaker-30a" demoUser
      demoParsed).2.2.1 ⟨"labor.unknown-task", 1, none⟩ (by decide) (by decide)⟩

/-- Model of Python str.split with a one-character separator: empty input
gives one empty segment, a separator starts a new segment, no separator is
ever part of a segment. -/
def splitChars (sep : Char) : List Char → List (List Char)
  | [] => [[]]
  | c :: rest =>
      if c = sep then [] :: splitChars sep rest
      else
        match splitChars sep rest with
        | [] => [[c]]
        | g :: gs => (c :: g) :: gs

/-- Python s.split(sep) for a one-character separator, on Strings. -/
def stringSplit (s : String) (sep : Char) : List String :=
  (splitChars sep s.data).map String.mk

/-- Python invoice_number.split("-")[-1] (invoice_builder.py line 156):
split never yields an empty list, and [-1] takes its last element. -/
def lastSegment (s : String) : String := (stringSplit s '-').getLastD s

/-- Model of Python int() applied to a dash-free segment: succeeds exactly
on a non-empty all-digit string.  (Python int also tolerates surrounding
whitespace, a leading sign and underscore separators; such segments are not
numeric invoice suffixes and none of the verified statements depend on
them.) -/
def parseIntSuffix (s : String) : Option Nat :=
  if s.data ≠ [] ∧ s.data.all Char.isDigit then
    some (s.data.foldl (fun n c => 10 * n + (c.toNat - 48)) 0)
  else none

/-- Python format spec 04d: left-pad the decimal representation with zeros
to a minimum width of 4. -/
def pad4 (n : Nat) : String :=
  if (toString n).length < 4 then
    String.mk (List.replicate (4 - (toString n).length) '0') ++ toString n
  else toString n

/-- Invoice-number assignment of services/invoice_builder.save_invoice,
lines 147-161: take the tenant's most recently created invoice number (if
any), parse the segment after the last dash; on success the new number is
currentYear-(n+1 zero-padded to 4 digits), otherwise currentYear-0001. -/
def next_invoice_number (currentYear : Nat) (lastNumber : Option String) : String :=
  match lastNumber with
  | some s =>
      match parseIntSuffix (lastSegment s) with
      | some n => toString currentYear ++ "-" ++ pad4 (n + 1)
      | none => toString currentYear ++ "-0001"
  | none => toString currentYear ++ "-0001"

/-- C4: when the last invoice number has a parseable numeric suffix n after
the last dash, the new number is the current year, a dash, and n+1
zero-padded to 4 digits; when there is no prior invoice or the suffix is
unparseable, it is the current year followed by -0001.  The concrete
conjuncts check the spec scenario 2024-0007 to 2024-0008, an unparseable
suffix, and a first invoice. -/
theorem invoice_number_assignment (year : Nat) (s : String) (n : Nat) :
    (parseIntSuffix (lastSegment s) = some n →
      next_invoice_number year (some s) = toString year ++ "-" ++ pad4 (n + 1))
    ∧ (parseIntSuffix (lastSegment s) = none →
      next_invoice_number year (some s) = toString year ++ "-0001")
    ∧ next_invoice_number year none = toString year ++ "-0001"
    ∧ next_invoice_number 2024 (some "2024-0007") = "2024-0008"
    ∧ next_invoice_number 2024 (some "INV-ABC") = "2024-0001"
    ∧ next_invoice_number 2025 none = "2025-0001" := by
  refine ⟨?_, ?_, rfl, by decide, by decide, by decide⟩
  · intro h
    simp [next_invoice_number, h]
  · intro h
    simp [next_invoice_number, h]

/-- Witness for C4: the implication hypothesis holds at the spec scenario,
where the suffix of 2024-0007 parses as 7. -/
theorem invoice_number_assignment_witness :
    next_invoice_number 2024 (some "2024-0007") =
      toString 2024 ++ "-" ++ pad4 (7 + 1) :=
  (invoice_number_assignment 2024 "2024-0007" 7).1 (by decide)


structure Date where
  year : Nat
  month : Nat
  day : Nat
deriving Repr, DecidableEq

def IsLeapYear (y : Nat) : Prop := (y % 4 = 0 ∧ y % 100 ≠ 0) ∨ y % 400 = 0

instance (y : Nat) : Decidable (IsLeapYear y) := by
  unfold IsLeapYear
  infer_instance

def daysInMonth (y m : Nat) : Nat :=
  if m = 2 then (if IsLeapYear y then 29 else 28)
  else if m = 4 ∨ m = 6 ∨ m = 9 ∨ m = 11 then 30
  else 31

def Date.Valid (d : Date) : Prop :=
  1 ≤ d.month ∧ d.month ≤ 12 ∧ 1 ≤ d.day ∧ d.day ≤ daysInMonth d.year d.month

instance (d : Date) : Decidable d.Valid := by
  unfold Date.Valid
  infer_instance

def Date.replace (_d : Date) (y m day : Nat) : Option Date :=
  if (Date.mk y m day).Valid then some ⟨y, m, day⟩ else none

def nextCalendarDay (d : Date) : Date :=
  if d.day < daysInMonth d.year d.month then ⟨d.year, d.month, d.day + 1⟩
  else if d.month < 12 then ⟨d.year, d.month + 1, 1⟩
  else ⟨d.year + 1, 1, 1⟩

def addDays (n : Nat) (d : Date) : Date := Nat.iterate nextCalendarDay n d

inductive RecurrenceFrequency where
  | weekly
  | biweekly
  | monthly
  | quarterly
  | yearly
deriving Repr, DecidableEq

def normalizeMonthAux : Nat → Nat → Nat → Nat × Nat
  | 0, year, month => (year, month)
  | fuel + 1, year, month =>
      if 12 < month then normalizeMonthAux fuel (year + 1) (month - 12)
      else (year, month)

def normalizeMonth (year month : Nat) : Nat × Nat :=
  normalizeMonthAux month year month

def get_next_date (frequency : RecurrenceFrequency) (from_date : Date) : Option Date :=
  match frequency with
  | .weekly => some (addDays 7 from_date)
  | .biweekly => some (addDays 14 from_date)
  | .monthly =>
      if 12 < from_date.month + 1 then
        from_date.replace (from_date.year + 1) 1 (min from_date.day 28)
      else
        from_date.replace from_date.year (from_date.month + 1) (min from_date.day 28)
  | .quarterly =>
      from_date.replace (normalizeMonth from_date.year (from_date.month + 3)).1
        (normalizeMonth from_date.year (from_date.month + 3)).2 (min from_date.day 28)
  | .yearly =>
      from_date.replace (from_date.year + 1) from_date.month from_date.day

theorem daysInMonth_ge_28 (y m : Nat) : 28 ≤ daysInMonth y m := by
  unfold daysInMonth
  split
  · split <;> omega
  · split <;> omega

theorem daysInMonth_feb_le (y : Nat) : daysInMonth y 2 ≤ 29 := by
  unfold daysInMonth
  norm_num
  split <;> omega

theorem normalizeMonthAux_succ (fuel year month : Nat) :
    normalizeMonthAux (fuel + 1) year month =
      if 12 < month then normalizeMonthAux fuel (year + 1) (month - 12)
      else (year, month) := rfl

theorem normalizeMonth_add_three (y m : Nat) (h1 : 1 ≤ m) (h : m ≤ 12) :
    normalizeMonth y (m + 3) =
      if m + 3 ≤ 12 then (y, m + 3) else (y + 1, m + 3 - 12) := by
  unfold normalizeMonth
  have h3 : m + 3 = (m + 2) + 1 := by omega
  rw [h3, normalizeMonthAux_succ]
  by_cases h12 : 12 < m + 2 + 1
  · rw [if_pos h12]
    have h2 : m + 2 = (m + 1) + 1 := by omega
    rw [h2, normalizeMonthAux_succ, if_neg (by omega), if_neg (by omega)]
  · rw [if_neg h12, if_pos (by omega)]

theorem next_date_frequency_rules (d : Date) (hd : d.Valid) :
    (get_next_date .weekly d = some (addDays 7 d))
    ∧ (get_next_date .biweekly d = some (addDays 14 d))
    ∧ (get_next_date .monthly d =
        some (if d.month = 12 then ⟨d.year + 1, 1, min d.day 28⟩
              else ⟨d.year, d.month + 1, min d.day 28⟩))
    ∧ (get_next_date .quarterly d =
        some (if d.month + 3 ≤ 12 then ⟨d.year, d.month + 3, min d.day 28⟩
              else ⟨d.year + 1, d.month + 3 - 12, min d.day 28⟩))
    ∧ (¬(d.month = 2 ∧ d.day = 29) →
        get_next_date .yearly d = some ⟨d.year + 1, d.month, d.day⟩)
    ∧ (d.month = 2 → d.day = 29 → get_next_date .yearly d = none) := by
  obtain ⟨hm1, hm2, hd1, hd2⟩ := hd
  refine ⟨rfl, rfl, ?_, ?_, ?_, ?_⟩
  · rw [get_next_date]
    by_cases h12 : d.month = 12
    · rw [if_pos (by omega), Date.replace, if_pos ?_, if_pos h12]
      have := daysInMonth_ge_28 (d.year + 1) 1
      simp only [Date.Valid]
      omega
    · rw [if_neg (by omega), Date.replace, if_pos ?_, if_neg h12]
      have := daysInMonth_ge_28 d.year (d.month + 1)
      simp only [Date.Valid]
      omega
  · rw [get_next_date, normalizeMonth_add_three d.year d.month hm1 hm2]
    by_cases h9 : d.month + 3 ≤ 12
    · rw [if_pos h9, Date.replace, if_pos ?_, if_pos h9]
      have := daysInMonth_ge_28 d.year (d.month + 3)
      simp only [Date.Valid]
      omega
    · rw [if_neg h9, Date.replace, if_pos ?_, if_neg h9]
      have := daysInMonth_ge_28 (d.year + 1) (d.month + 3 - 12)
      simp only [Date.Valid]
      omega
  · intro hne
    rw [get_next_date, Date.replace, if_pos]
    simp only [Date.Valid]
    refine ⟨by omega, by omega, by omega, ?_⟩
    by_cases h2 : d.month = 2
    · have h29 : d.day ≤ 29 := by
        have := daysInMonth_feb_le d.year
        rw [h2] at hd2
        omega
      have hne29 : d.day ≠ 29 := fun hc => hne ⟨h2, hc⟩
      have := daysInMonth_ge_28 (d.year + 1) d.month
      omega
    · have heq : daysInMonth (d.year + 1) d.month = daysInMonth d.year d.month := by
        unfold daysInMonth
        rw [if_neg h2, if_neg h2]
      omega
  · intro h2 h29
    rw [get_next_date, Date.replace, if_neg]
    simp only [Date.Valid]
    intro hv
    obtain ⟨-, -, -, hle⟩ := hv
    have hleap : IsLeapYear d.year := by
      by_contra hnl
      have hdm : daysInMonth d.year d.month = 28 := by
        unfold daysInMonth
        rw [h2, if_pos rfl, if_neg hnl]
      omega
    have hy4 : d.year % 4 = 0 := by
      rcases hleap with ⟨h4, -⟩ | h400
      · exact h4
      · omega
    have hnl1 : ¬ IsLeapYear (d.year + 1) := by
      unfold IsLeapYear
      omega
    have hdm1 : daysInMonth (d.year + 1) d.month = 28 := by
      unfold daysInMonth
      rw [h2, if_pos rfl, if_neg hnl1]
    rw [h2] at hle hdm1
    omega

/-- Counterexample to C5: Feb 29 2024 is a valid (leap-day) start date, yet
the yearly rule does not return the same month and day with the year
incremented: datetime.replace(year=2025) raises ValueError because
2025-02-29 does not exist, modelled here as none. -/
theorem yearly_from_feb29_cex :
    Date.Valid ⟨2024, 2, 29⟩
    ∧ get_next_date .yearly ⟨2024, 2, 29⟩ = none
    ∧ get_next_date .yearly ⟨2024, 2, 29⟩ ≠ some ⟨2025, 2, 29⟩ :=
  ⟨by decide, by decide, by decide⟩

/-- Witness for C5: monthly from Jan 31 2025 lands on Feb 28 2025 (the
spec's clamping example), and yearly from Mar 15 2026 gives Mar 15 2027. -/
theorem next_date_frequency_rules_witness :
    Date.Valid ⟨2025, 1, 31⟩
    ∧ get_next_date .monthly ⟨2025, 1, 31⟩ = some ⟨2025, 2, 28⟩
    ∧ get_next_date .yearly ⟨2026, 3, 15⟩ = some ⟨2027, 3, 15⟩ := by
  refine ⟨by decide, ?_, ?_⟩
  · exact ((next_date_frequency_rules ⟨2025, 1, 31⟩ (by decide)).2.2.1).trans
      (by decide)
  · exact (((next_date_frequency_rules ⟨2026, 3, 15⟩ (by decide)).2.2.2.2.1)
      (by decide)).trans (by decide)

/-- The invoice columns read and written by the payment route
(db/models.py Invoice: amount_paid is nullable with default 0). -/
structure InvoiceState where
  amount_paid : Option ℚ
  total : ℚ
  status : String
  payment_method : Option String
  payment_reference : Option String
deriving Repr, DecidableEq

/-- The client columns relevant to aggregates (db/models.py Client):
payment_terms defaults to 30, total_invoiced and invoice_count to 0,
total_paid to 0 (nullable). -/
structure ClientState where
  payment_terms : Nat
  total_invoiced : ℚ
  total_paid : Option ℚ
  invoice_count : Nat
deriving Repr, DecidableEq

/-- api/routes.record_payment, lines 548-572 (after the invoice has been
found; the only failure branch in the route is invoice-not-found, there is
no validation of the amount): amount_paid := (amount_paid or 0) + amount;
status := paid when amount_paid is at least total, else partial when
amount_paid is positive, else unchanged; when a client is attached, its
total_paid := (total_paid or 0) + amount. -/
def record_payment (invoice : InvoiceState) (client : Option ClientState)
    (amount : ℚ) (method : String) (reference : Option String) :
    InvoiceState × Option ClientState :=
  let paid := invoice.amount_paid.getD 0 + amount
  let status :=
    if invoice.total ≤ paid then "paid"
    else if 0 < paid then "partial"
    else invoice.status
  (⟨some paid, invoice.total, status, some method, reference⟩,
   client.map (fun c =>
     ⟨c.payment_terms, c.total_invoiced, some (c.total_paid.getD 0 + amount),
       c.invoice_count⟩))

/-- Exact characterization of the status written by record_payment: paid
when the new amount_paid reaches the total, otherwise partial when the new
amount_paid is positive, otherwise the if/elif chain falls through and the
previous status — possibly a stale paid — is kept. -/
theorem record_payment_status_iff (invoice : InvoiceState)
    (client : Option ClientState) (amount : ℚ) (method : String)
    (reference : Option String) :
    ((record_payment invoice client amount method reference).1.status = "paid" ↔
      (invoice.total ≤ invoice.amount_paid.getD 0 + amount
        ∨ (invoice.amount_paid.getD 0 + amount ≤ 0 ∧ invoice.status = "paid"))) := by
  simp only [record_payment]
  by_cases h1 : invoice.total ≤ invoice.amount_paid.getD 0 + amount
  · rw [if_pos h1]
    simp [h1]
  · rw [if_neg h1]
    by_cases h2 : 0 < invoice.amount_paid.getD 0 + amount
    · rw [if_pos h2]
      constructor
      · intro hs
        exact absurd hs (by decide)
      · rintro (hc | ⟨hle, -⟩)
        · exact absurd hc h1
        · linarith
    · rw [if_neg h2]
      constructor
      · intro hs
        exact Or.inr ⟨by linarith, hs⟩
      · rintro (hc | ⟨-, hst⟩)
        · exact absurd hc h1
        · exact hst

/-- Counterexample to C6: a state with negative amount_paid and stale paid
status is reachable through the route itself (pay 100 on a 100 invoice,
then the accepted negative payment -150 leaves amount_paid -50 with status
still paid since neither status branch fires); applying the positive
payment 10 there yields amount_paid -40 < total 100 while the status stays
paid, so the claimed equivalence (paid exactly when new amount_paid reaches
the total) fails after a payment of a > 0. -/
theorem stale_paid_status_cex :
    ((record_payment ⟨some 0, 100, "draft", none, none⟩ none 100 "cash"
        none).1 = ⟨some 100, 100, "paid", some "cash", none⟩)
    ∧ ((record_payment ⟨some 100, 100, "paid", some "cash", none⟩ none (-150)
        "cash" none).1 = ⟨some (-50), 100, "paid", some "cash", none⟩)
    ∧ (0:ℚ) < 10
    ∧ ((record_payment ⟨some (-50), 100, "paid", some "cash", none⟩ none 10
        "cash" none).1 = ⟨some (-40), 100, "paid", some "cash", none⟩)
    ∧ ¬ ((100:ℚ) ≤ -40) := by
  refine ⟨?_, ?_, by norm_num, ?_, by norm_num⟩
  · rw [record_payment]
    norm_num
  · rw [record_payment]
    norm_num
  · rw [record_payment]
    norm_num

/-- C6 amended: applying a payment of amount a greater than 0 increases the
invoice's amount_paid by exactly a (strictly, never decreasing) and an
attached client's total_paid by the same a; afterwards the status is paid
exactly when the new amount_paid reaches the total OR the new amount_paid
is non-positive and the status was already paid (the if/elif chain keeps a
stale status when the new amount_paid is non-positive, a state reachable
because negative payments are accepted); in particular whenever the new
amount_paid is positive the original equivalence holds: paid exactly when
it reaches the total, and partial when it is positive but below the
total. -/
theorem payment_application_characterized (invoice : InvoiceState)
    (client : Option ClientState) (amount : ℚ) (method : String)
    (reference : Option String) (hpos : 0 < amount) :
    ((record_payment invoice client amount method reference).1.amount_paid =
        some (invoice.amount_paid.getD 0 + amount))
    ∧ (invoice.amount_paid.getD 0 <
        (record_payment invoice client amount method reference).1.amount_paid.getD 0)
    ∧ ((record_payment invoice client amount method reference).1.status = "paid" ↔
        (invoice.total ≤ invoice.amount_paid.getD 0 + amount
          ∨ (invoice.amount_paid.getD 0 + amount ≤ 0 ∧ invoice.status = "paid")))
    ∧ (0 < invoice.amount_paid.getD 0 + amount →
        ((record_payment invoice client amount method reference).1.status = "paid" ↔
          invoice.total ≤ invoice.amount_paid.getD 0 + amount))
    ∧ (0 < invoice.amount_paid.getD 0 + amount →
        invoice.amount_paid.getD 0 + amount < invoice.total →
        (record_payment invoice client amount method reference).1.status = "partial")
    ∧ (∀ c, client = some c →
        (record_payment invoice client amount method reference).2 =
          some ⟨c.payment_terms, c.total_invoiced,
            some (c.total_paid.getD 0 + amount), c.invoice_count⟩) := by
  refine ⟨rfl, ?_, record_payment_status_iff _ _ _ _ _, ?_, ?_, ?_⟩
  · simp only [record_payment, Option.getD_some]
    linarith
  · intro hp
    rw [record_payment_status_iff]
    constructor
    · rintro (h | ⟨hle, -⟩)
      · exact h
      · linarith
    · exact Or.inl
  · intro hp hlt
    simp only [record_payment]
    rw [if_neg (by linarith), if_pos hp]
  · intro c hc
    simp [record_payment, hc]

/-- Witness for C6: paying the exact total of a fresh invoice (amount_paid
0, so the new amount_paid 100 is positive) marks it paid. -/
theorem payment_application_characterized_witness :
    (0:ℚ) < 100
    ∧ ((record_payment ⟨some 0, 100, "draft", none, none⟩ none 100 "cash"
        none).1.status = "paid") := by
  refine ⟨by norm_num, ?_⟩
  refine ((payment_application_characterized ⟨some 0, 100, "draft", none, none⟩
    none 100 "cash" none (by norm_num)).2.2.2.1 (by norm_num)).mpr ?_
  norm_num

/-- C7 failing input: the route accepts the negative amount -50 without any
validation error.  On a fully paid invoice (amount_paid 100 = total 100,
client total_paid 100) it decreases amount_paid and the client's total_paid
to 50 and rewrites the status, instead of rejecting the amount and leaving
all state unchanged as the claim requires. -/
theorem negative_payment_accepted_and_applied :
    (record_payment ⟨some 100, 100, "paid", none, none⟩
        (some ⟨30, 0, some 100, 0⟩) (-50) "cash" none) =
      (⟨some 50, 100, "partial", some "cash", none⟩,
       some ⟨30, 0, some 50, 0⟩) := by
  rw [record_payment]
  norm_num

/-- api/schemas.BusinessSettingsUpdate (lines 132-141): every field is a
plain Optional with no validator and no range constraint on either tax
rate.  An outer none models a field absent from the request
(model_dump(exclude_unset=True) skips it); an outer some v assigns v. -/
structure BusinessSettingsUpdate where
  business_name : Option (Option String)
  business_address : Option (Option String)
  business_phone : Option (Option String)
  business_email : Option (Option String)
  tax_rate : Option (Option ℚ)
  tax_name : Option (Option String)
  secondary_tax_rate : Option (Option ℚ)
  secondary_tax_name : Option (Option String)
deriving Repr, DecidableEq

/-- api/routes.update_settings, lines 421-435: setattr every provided field
onto the users row and commit; no value is validated anywhere. -/
def update_settings (user : UserSettings) (upd : BusinessSettingsUpdate) :
    UserSettings :=
  ⟨upd.business_name.getD user.business_name,
   upd.business_address.getD user.business_address,
   upd.business_phone.getD user.business_phone,
   upd.business_email.getD user.business_email,
   upd.tax_rate.getD user.tax_rate,
   upd.tax_name.getD user.tax_name,
   upd.secondary_tax_rate.getD user.secondary_tax_rate,
   upd.secondary_tax_name.getD user.secondary_tax_name⟩

/-- Counterexample to C8: the tax rate 5 lies outside the unit interval,
yet the settings update stores it and changes the stored settings instead
of failing with a validation error and leaving them unchanged. -/
theorem out_of_range_tax_rate_stored_cex :
    ¬ ((5:ℚ) ≤ 1)
    ∧ (update_settings demoUser
        ⟨none, none, none, none, some (some 5), none, none, none⟩).tax_rate =
      some 5
    ∧ update_settings demoUser
        ⟨none, none, none, none, some (some 5), none, none, none⟩ ≠ demoUser := by
  refine ⟨by norm_num, rfl, ?_⟩
  intro h
  have h5 := congrArg UserSettings.tax_rate h
  simp [demoUser, update_settings] at h5
  norm_num at h5

/-- C8 amended: the settings update stores any provided tax rate verbatim,
with no range check at settings-update time (the first two conjuncts) — in
particular every rational r, also outside the unit interval, ends up as the
stored rate that pricing later reads (the last two conjuncts). -/
theorem settings_update_stores_any_tax_rate (user : UserSettings) (r sr : ℚ)
    (upd : BusinessSettingsUpdate) :
    ((update_settings user upd).tax_rate = upd.tax_rate.getD user.tax_rate)
    ∧ ((update_settings user upd).secondary_tax_rate =
        upd.secondary_tax_rate.getD user.secondary_tax_rate)
    ∧ ((update_settings user
        ⟨none, none, none, none, some (some r), none, some (some sr),
          none⟩).tax_rate = some r)
    ∧ ((update_settings user
        ⟨none, none, none, none, some (some r), none, some (some sr),
          none⟩).secondary_tax_rate = some sr) :=
  ⟨rfl, rfl, rfl, rfl⟩

/-- Persisted invoice row as written by save_invoice
(db/models.py Invoice). -/
structure InvoiceRecord where
  user_id : Nat
  client_id : Option Nat
  invoice_number : String
  status : String
  original_input : String
  work_date : Date
  invoice_date : Date
  due_date : Date
  subtotal : ℚ
  tax_amount : ℚ
  secondary_tax_amount : ℚ
  total : ℚ
  notes : Option String
deriving Repr, DecidableEq

/-- Persisted line-item row (db/models.py InvoiceLineItem). -/
structure LineItemRecord where
  rate_item_id : Option Nat
  description : String
  quantity : ℚ
  unit : String
  unit_price : ℚ
  line_total : ℚ
  sort_order : Nat
deriving Repr, DecidableEq

/-- Model of datetime.strptime(s, date format year-month-day): digit
segments for year, month and day separated by dashes, and the resulting
date must exist on the calendar. -/
def parseWorkDate (s : String) : Option Date :=
  match stringSplit s '-' with
  | [y, m, d] =>
      match parseIntSuffix y, parseIntSuffix m, parseIntSuffix d with
      | some yy, some mm, some dd =>
          if (Date.mk yy mm dd).Valid then some ⟨yy, mm, dd⟩ else none
      | _, _, _ => none
  | _ => none

/-- Work-date resolution of save_invoice, lines 163-171: parse the carried
date string, falling back to now on absence or parse failure. -/
def resolveWorkDate (now : Date) (dataWorkDate : Option String) : Date :=
  match dataWorkDate with
  | some s => (parseWorkDate s).getD now
  | none => now

/-- services/invoice_builder.save_invoice, lines 139-209: assign the
invoice number from the tenant's last invoice number, resolve the work
date, and write the invoice row with status draft, invoice_date = now and
due_date = now + 30 days (the client's payment_terms column is never read),
plus one line-item row per line with its ordinal position.  The date-only
model drops the identical time-of-day of the datetime.now() calls. -/
def save_invoice (now : Date) (currentYear : Nat) (lastNumber : Option String)
    (userId : Nat) (clientId : Option Nat) (data : InvoiceData)
    (originalInput : String) : InvoiceRecord × List LineItemRecord :=
  (⟨userId, clientId, next_invoice_number currentYear lastNumber, "draft",
     originalInput, resolveWorkDate now data.work_date, now, addDays 30 now,
     data.subtotal, data.tax_amount, data.secondary_tax_amount, data.total,
     data.notes⟩,
   data.line_items.enum.map (fun pe =>
     ⟨pe.2.rate_item_id, pe.2.description, pe.2.quantity, pe.2.unit,
       pe.2.unit_price, pe.2.line_total, pe.1⟩))

set_option maxRecDepth 20000 in
/-- Counterexample to C9: for a client configured with payment terms of 45
days, the saved invoice (date 2026-01-01) is due 2026-01-31 = invoice date
plus 30 days, not 2026-02-15 = invoice date plus the payment-terms days;
the payment_terms column is never consulted. -/
theorem due_date_ignores_payment_terms_cex :
    (⟨45, 0, some 0, 0⟩ : ClientState).payment_terms = 45
    ∧ (save_invoice ⟨2026, 1, 1⟩ 2026 none 1 (some 7)
        ⟨[], 0, 0, 0, 0, none, none, none, []⟩ "two bulbs").1.invoice_date =
      ⟨2026, 1, 1⟩
    ∧ (save_invoice ⟨2026, 1, 1⟩ 2026 none 1 (some 7)
        ⟨[], 0, 0, 0, 0, none, none, none, []⟩ "two bulbs").1.due_date =
      ⟨2026, 1, 31⟩
    ∧ addDays 45 ⟨2026, 1, 1⟩ = ⟨2026, 2, 15⟩
    ∧ (⟨2026, 1, 31⟩ : Date) ≠ ⟨2026, 2, 15⟩ := by
  refine ⟨rfl, ?_, ?_, by decide, by decide⟩
  · simp only [save_invoice]
  · simp only [save_invoice]
    decide

/-- C9 amended: every saved invoice has invoice_date = now and
due_date = now + 30 days, regardless of any configured payment terms, so
the claim's default-case formula (invoice date plus 30 days) is what always
happens.  (models.py gives Client.payment_terms the default 30, under which
the claimed formula coincides with the code.) -/
theorem due_date_always_thirty_days (now : Date) (currentYear : Nat)
    (lastNumber : Option String) (userId : Nat) (clientId : Option Nat)
    (data : InvoiceData) (originalInput : String) :
    ((save_invoice now currentYear lastNumber userId clientId data
        originalInput).1.invoice_date = now)
    ∧ ((save_invoice now currentYear lastNumber userId clientId data
        originalInput).1.due_date = addDays 30 now)
    ∧ ((save_invoice now currentYear lastNumber userId clientId data
        originalInput).1.due_date =
      addDays 30 (save_invoice now currentYear lastNumber userId clientId data
        originalInput).1.invoice_date) := by
  refine ⟨?_, ?_, ?_⟩ <;> simp only [save_invoice]

/-- The two persisted-state operations that touch a client's row or could:
saving an invoice (save_invoice adds invoice and invoice_line_items rows
only and never writes the clients table, so the client passes through
unchanged) and recording a payment (whose client effect is the second
component of record_payment). -/
inductive ClientOp where
  | saveInvoice (now : Date) (currentYear : Nat) (lastNumber : Option String)
      (userId : Nat) (data : InvoiceData) (originalInput : String)
  | payment (invoice : InvoiceState) (amount : ℚ) (method : String)
      (reference : Option String)

/-- Effect of one operation on the client row. -/
def applyClientOp (c : ClientState) : ClientOp → ClientState
  | .saveInvoice _ _ _ _ _ _ => c
  | .payment invoice amount method reference =>
      ((record_payment invoice (some c) amount method reference).2).getD c

/-- A freshly created client row (db/models.py defaults: payment_terms 30,
total_invoiced 0, total_paid 0, invoice_count 0). -/
def newClient : ClientState := ⟨30, 0, some 0, 0⟩

/-- One operation never changes total_invoiced or invoice_count. -/
theorem applyClientOp_frame (c : ClientState) (op : ClientOp) :
    (applyClientOp c op).total_invoiced = c.total_invoiced ∧
    (applyClientOp c op).invoice_count = c.invoice_count := by
  cases op with
  | saveInvoice _ _ _ _ _ _ => exact ⟨rfl, rfl⟩
  | payment invoice amount method reference =>
      simp [applyClientOp, record_payment]

/-- No sequence of operations changes total_invoiced or invoice_count. -/
theorem foldl_client_frame (ops : List ClientOp) (c : ClientState) :
    ((ops.foldl applyClientOp c).total_invoiced = c.total_invoiced) ∧
    ((ops.foldl applyClientOp c).invoice_count = c.invoice_count) := by
  induction ops generalizing c with
  | nil => exact ⟨rfl, rfl⟩
  | cons op rest ih =>
      rw [List.foldl_cons]
      exact ⟨(ih (applyClientOp c op)).1.trans (applyClientOp_frame c op).1,
        (ih (applyClientOp c op)).2.trans (applyClientOp_frame c op).2⟩

/-- C10: across any sequence of invoice saves and payment recordings the
client's denormalized total_invoiced and invoice_count aggregates never
change, so from a fresh client they stay 0 forever; and recording a payment
changes only the client's total_paid (the last conjunct exhibits the full
updated row: payment_terms, total_invoiced and invoice_count carried over
unchanged). -/
theorem client_aggregates_never_updated (ops : List ClientOp) (c : ClientState) :
    ((ops.foldl applyClientOp c).total_invoiced = c.total_invoiced)
    ∧ ((ops.foldl applyClientOp c).invoice_count = c.invoice_count)
    ∧ ((ops.foldl applyClientOp newClient).total_invoiced = 0)
    ∧ ((ops.foldl applyClientOp newClient).invoice_count = 0)
    ∧ (∀ invoice amount method reference,
        ((record_payment invoice (some c) amount method reference).2 =
          some ⟨c.payment_terms, c.total_invoiced,
            some (c.total_paid.getD 0 + amount), c.invoice_count⟩)) := by
  refine ⟨(foldl_client_frame ops c).1, (foldl_client_frame ops c).2,
    (foldl_client_frame ops newClient).1, (foldl_client_frame ops newClient).2,
    ?_⟩
  intro invoice amount method reference
  simp [record_payment]

end SmartInvoice
